import Mathlib

/-!
Verification of the `statefulSetNode` upgrade state machine of the
elasticsearch-operator (`pkg/k8shandler`, file defining `statefulSetNode`).

The Go source is shallowly embedded as pure Lean functions.  External
effects (the Kubernetes API server, the elasticsearch cluster-health
oracle, pod deletion) are modelled by

* an explicit store `Sim.store` holding the live StatefulSet object, and
* an adversarial environment `Env` that fixes the outcome of every
  external call (health string, node-count fetches, get/update results,
  pod-deletion success), indexed where needed by retry attempt or by the
  per-ordinal loop iteration.

Every API mutation that actually lands on the store is recorded as an
`Event`, so claims about "no write occurs" or about the sequence of
partition values written are stated over the event trace.

Machine `int32` values are modelled as `Int` (no arithmetic here comes
near the 32-bit boundary: values are replica counts and ordinals).
-/

namespace ESOp

/-- Result of a Kubernetes API write, distinguishing optimistic-concurrency
conflicts (which `retry.RetryOnConflict` retries) from other errors. -/
inductive APIResult
  | ok
  | conflict
  | err
  deriving DecidableEq, Repr

/-- Result of a Kubernetes API read, distinguishing not-found from other errors
(`isMissing` treats only not-found as missing). -/
inductive GetRes
  | ok
  | notFound
  | err
  deriving DecidableEq, Repr

/-- Result of a Kubernetes API create, distinguishing already-exists
(`create` falls through to `scale`) from other errors. -/
inductive CRes
  | ok
  | alreadyExists
  | err
  deriving DecidableEq, Repr

/-- Pod template content, kept abstract but structural: container image and
environment, which is what the change detector compares field-for-field. -/
structure PodTemplate where
  image : String
  envVars : List (String × String)
  deriving DecidableEq, Repr

/-- The fields of a StatefulSet the embedded code reads or writes:
`Spec.Replicas`, `Spec.UpdateStrategy.RollingUpdate.Partition`,
`Spec.Template`, `Status.Replicas`, and the object metadata the code
consults (`Name`, `ResourceVersion`). -/
structure StatefulSet where
  name : String
  resourceVersion : String
  replicas : Int
  part : Int
  template : PodTemplate
  statusReplicas : Int
  deriving DecidableEq, Repr

/-- The `statefulSetNode` receiver state: its in-memory copy `self` of the
StatefulSet, the configmap/secret content hashes, the owning cluster name and
the cluster size captured at upgrade start. -/
structure Node where
  self : StatefulSet
  configmapHash : String
  secretHash : String
  clusterName : String
  clusterSize : Int
  deriving DecidableEq, Repr

/-- The simulation state: the node receiver plus the live object held by the
API server. -/
structure Sim where
  node : Node
  store : StatefulSet
  deriving DecidableEq, Repr

/-- The `UpgradePhase` enum: `""` (empty), `api.NodeRestarting`,
`api.RecoveringData`, `api.ControllerUpdated`. -/
inductive Phase
  | empty
  | nodeRestarting
  | recoveringData
  | controllerUpdated
  deriving DecidableEq, Repr, BEq

/-- The `v1.ConditionStatus` values the code uses for `UnderUpgrade`:
`v1.ConditionTrue`, `v1.ConditionFalse`, and the empty string. -/
inductive CondStatus
  | isTrue
  | isFalse
  | unset
  deriving DecidableEq, Repr

/-- The fragment of `api.ElasticsearchNodeStatus` the three entry points read
and mutate: `UpgradeStatus.UnderUpgrade` and `UpgradeStatus.UpgradePhase`. -/
structure UStatus where
  underUpgrade : CondStatus
  phase : Phase
  deriving DecidableEq, Repr

/-- Observable API mutations: a successful partition write, replica write,
spec push (`executeUpdate`'s `client.Update`), pod deletion, object creation. -/
inductive Event
  | setPartition (n : Int)
  | setReplicas (n : Int)
  | specPush
  | deletePod (podName : String)
  | createSts
  deriving DecidableEq, Repr

/-- Errors a `wait.Poll` call can produce in this model: the 60s timeout, or
the (unreachable, see `rejoinCond`) propagated node-count fetch error. -/
inductive PollErr
  | timeout
  | fetch
  deriving DecidableEq, Repr

/-! ## Membership probe: `waitForNodeRejoinCluster` / `waitForNodeLeaveCluster`

A node-count fetch `GetClusterNodeCount` is modelled as a pair
`Int × Bool`: the returned count and whether the call errored.  A wait's
observation stream `obs : Nat → Int × Bool` gives the fetch outcome of each
1-second poll tick. -/

/-- The poll condition closure of `waitForNodeRejoinCluster`, verbatim from the
source: the named return `err` is still nil when the `if err != nil` check
runs (the code checks `err`, not `getErr`), so the fetch-error branch is dead
and the result only compares the observed count with the recorded
`clusterSize`. -/
def rejoinCond (nodeClusterSize : Int) (fetch : Int × Bool) : Bool × Option PollErr :=
  let err : Option PollErr := none
  let clusterSize := fetch.1
  let getErr := fetch.2
  if err.isSome then
    (false, if getErr then some PollErr.fetch else none)
  else
    (decide (nodeClusterSize ≤ clusterSize), none)

/-- The poll condition closure of `waitForNodeLeaveCluster`, verbatim from the
source; same dead fetch-error branch as `rejoinCond`. -/
def leaveCond (nodeClusterSize : Int) (fetch : Int × Bool) : Bool × Option PollErr :=
  let err : Option PollErr := none
  let clusterSize := fetch.1
  let getErr := fetch.2
  if err.isSome then
    (false, if getErr then some PollErr.fetch else none)
  else
    (decide (nodeClusterSize > clusterSize), none)

/-- Model of `wait.Poll(1s, 60s, cond)`: the condition is evaluated once per
1-second tick for up to `fuel` ticks; a condition error stops the poll with
that error, `done = true` stops it with success, and exhausting the ticks
yields the timeout error.  `i` is the index of the current tick in `obs`. -/
def pollLoop (cond : Int × Bool → Bool × Option PollErr) (obs : Nat → Int × Bool) :
    Nat → Nat → Option PollErr
  | _, 0 => some PollErr.timeout
  | i, fuel + 1 =>
    match cond (obs i) with
    | (_, some e) => some e
    | (true, none) => none
    | (false, none) => pollLoop cond obs (i + 1) fuel

/-- Number of condition evaluations of `wait.Poll(1s, 60s, ·)`: one per
second for up to 60 seconds. -/
def pollTicks : Nat := 60

/-- Model of `waitForNodeRejoinCluster`: polls the node count every 1s for up
to 60s and returns `(err, err == nil)`. -/
def waitForNodeRejoinCluster (nodeClusterSize : Int) (obs : Nat → Int × Bool) :
    Option PollErr × Bool :=
  let err := pollLoop (rejoinCond nodeClusterSize) obs 0 pollTicks
  (err, err.isNone)

/-- Model of `waitForNodeLeaveCluster`: polls the node count every 1s for up
to 60s and returns `(err, err == nil)`. -/
def waitForNodeLeaveCluster (nodeClusterSize : Int) (obs : Nat → Int × Bool) :
    Option PollErr × Bool :=
  let err := pollLoop (leaveCond nodeClusterSize) obs 0 pollTicks
  (err, err.isNone)

/-! ## Partition controller: conflict-retried read-modify-write

`retry.RetryOnConflict(retry.DefaultRetry, body)` runs `body` and retries it
as long as it returns a conflict error, up to `retry.DefaultRetry.Steps = 5`
attempts; any other error aborts immediately.  An `RWEnv` fixes, per attempt,
whether the body's `Get` succeeds and what its `Update` returns. -/

/-- Per-attempt outcomes for one read-modify-write call: `getOk k` is whether
the `Get` of attempt `k` succeeds, `upd k` the result of its `Update`. -/
structure RWEnv where
  getOk : Nat → Bool
  upd : Nat → APIResult

/-- Model of `retry.RetryOnConflict(retry.DefaultRetry, body)`: attempt `k`
runs the body; a conflict result is retried (up to `steps` attempts in
total), anything else is returned.  Exhaustion reports the last conflict. -/
def retryOnConflict (body : Nat → Sim → Sim × List Event × APIResult) :
    Nat → Nat → Sim → Sim × List Event × APIResult
  | 0, _, s => (s, [], APIResult.conflict)
  | steps + 1, k, s =>
    match body k s with
    | (s', ev, APIResult.conflict) =>
      let (s'', ev', r) := retryOnConflict body steps (k + 1) s'
      (s'', ev ++ ev', r)
    | out => out

/-- Steps bound of `retry.DefaultRetry`. -/
def defaultRetrySteps : Nat := 5

/-- One attempt of `setPartition`'s retry body: `Get` the live object into
`node.self`; if the live partition already equals the target, report success
without writing; otherwise set the partition on `self` and `Update`. -/
def setPartitionBody (env : RWEnv) (partitions : Int) (k : Nat) (s : Sim) :
    Sim × List Event × APIResult :=
  if env.getOk k then
    let s := { s with node := { s.node with self := s.store } }
    if s.store.part = partitions then (s, [], APIResult.ok)
    else
      let self := { s.node.self with part := partitions }
      let s := { s with node := { s.node with self := self } }
      match env.upd k with
      | APIResult.ok =>
        ({ s with store := self }, [Event.setPartition partitions], APIResult.ok)
      | r => (s, [], r)
  else (s, [], APIResult.err)

/-- Model of `setPartition`: the conflict-retried read-modify-write of the
rolling-update partition; returns whether it succeeded. -/
def setPartition (env : RWEnv) (partitions : Int) (s : Sim) : Sim × List Event × Bool :=
  match retryOnConflict (setPartitionBody env partitions) defaultRetrySteps 0 s with
  | (s', ev, APIResult.ok) => (s', ev, true)
  | (s', ev, _) => (s', ev, false)

/-- One attempt of `setReplicaCount`'s retry body, symmetric to
`setPartitionBody` on `Spec.Replicas`. -/
def setReplicaCountBody (env : RWEnv) (replicas : Int) (k : Nat) (s : Sim) :
    Sim × List Event × APIResult :=
  if env.getOk k then
    let s := { s with node := { s.node with self := s.store } }
    if s.store.replicas = replicas then (s, [], APIResult.ok)
    else
      let self := { s.node.self with replicas := replicas }
      let s := { s with node := { s.node with self := self } }
      match env.upd k with
      | APIResult.ok =>
        ({ s with store := self }, [Event.setReplicas replicas], APIResult.ok)
      | r => (s, [], r)
  else (s, [], APIResult.err)

/-- Model of `setReplicaCount`: the conflict-retried read-modify-write of
`Spec.Replicas`; returns whether it succeeded. -/
def setReplicaCount (env : RWEnv) (replicas : Int) (s : Sim) : Sim × List Event × Bool :=
  match retryOnConflict (setReplicaCountBody env replicas) defaultRetrySteps 0 s with
  | (s', ev, APIResult.ok) => (s', ev, true)
  | (s', ev, _) => (s', ev, false)

/-- Model of `partition()`: `Get` the live object into a fresh local and
return `*Spec.UpdateStrategy.RollingUpdate.Partition`; `(-1, false)` on a
failed get. -/
def partitionRead (getOk : Bool) (s : Sim) : Int × Bool :=
  if getOk then (s.store.part, true) else (-1, false)

/-- Model of `replicaCount()`: `Get` the live object into a fresh local and
return `Status.Replicas` (note: the status field, not `Spec.Replicas`);
`(-1, false)` on a failed get. -/
def replicaCount (getOk : Bool) (s : Sim) : Int × Bool :=
  if getOk then (s.store.statusReplicas, true) else (-1, false)

/-! ## Change detection -/

/-- Modelled from the spec: `elasticsearch.UpdatePodTemplateSpec` lives in the
`pkg/k8shandler/elasticsearch` package, which is not under src/.  Per the
spec, the change detector diffs the live pod template against the freshly
constructed desired template field-for-field (container image and env) and
reports whether they differ. -/
def UpdatePodTemplateSpec (current desired : PodTemplate) : Bool :=
  decide (current ≠ desired)

/-- Model of `isChanged`: blank `node.self.Spec`, `Get` the live object into
`node.self` (returning `false` when the get fails), then compare the live pod
template with the desired one; when they differ the desired template is
applied to `node.self` so that a subsequent `executeUpdate` pushes it (the
construction of the desired template by the missing
`elasticsearch.UpdatePodTemplateSpec` is modelled from the spec as the
parameter `desiredTemplate`). -/
def isChanged (getOk : Bool) (desiredTemplate : PodTemplate) (s : Sim) : Sim × Bool :=
  if getOk then
    let live := s.store
    let changed := UpdatePodTemplateSpec live.template desiredTemplate
    let self := if changed then { live with template := desiredTemplate } else live
    ({ s with node := { s.node with self := self } }, changed)
  else (s, false)

/-- Model of `isMissing`: `Get` the live object and report missing exactly
when the error is not-found. -/
def isMissing (res : GetRes) : Bool :=
  decide (res = GetRes.notFound)

/-! ## Environment

One `Env` value fixes the outcome of every external call a single entry-point
invocation can make.  Fields used inside the per-ordinal loop are indexed by
the loop iteration (`k` is the iteration whose Go loop variable `index` is
`k + 1`); fields used inside a retry loop are indexed by the attempt. -/

/-- Environment of one entry-point call: outcomes of every external call. -/
structure Env where
  /-- `GetClusterHealthStatus` result at upgrade start. -/
  health : String
  /-- `GetClusterNodeCount` at upgrade start: value and whether it errored. -/
  nodeCount : Int × Bool
  /-- whether `replicaCount()`'s get succeeds at upgrade start. -/
  rcGet : Bool
  /-- outcomes of the `setPartition(replicas)` call at upgrade start. -/
  spStart : RWEnv
  /-- result of `isMissing`'s get. -/
  missRes : GetRes
  /-- result of `create`'s `client.Create`. -/
  createRes : CRes
  /-- configmap hash seeded by `create`. -/
  cmHash : String
  /-- secret hash seeded by `create`. -/
  secHash : String
  /-- whether `scale`'s get succeeds. -/
  scaleGet : Bool
  /-- outcomes of `scale`'s `setReplicaCount` call. -/
  scaleRW : RWEnv
  /-- whether `partition()`'s get succeeds at `NodeRestarting` entry. -/
  partGet : Bool
  /-- per-iteration observation stream of the loop's rejoin wait. -/
  loopRejoin : Nat → Nat → Int × Bool
  /-- per-iteration success of `DeletePod`. -/
  loopDelete : Nat → Bool
  /-- per-iteration observation stream of the loop's leave wait. -/
  loopLeave : Nat → Nat → Int × Bool
  /-- per-iteration outcomes of the loop's `setPartition(index-1)` call. -/
  loopSP : Nat → RWEnv
  /-- observation stream of the final rejoin wait after the loop. -/
  finalRejoin : Nat → Int × Bool
  /-- configmap hash observed by `refreshHashes`. -/
  rhCm : String
  /-- secret hash observed by `refreshHashes`. -/
  rhSec : String
  /-- per-attempt get success inside `executeUpdate`. -/
  euGet : Nat → Bool
  /-- per-attempt update result inside `executeUpdate`. -/
  euUpd : Nat → APIResult
  /-- the freshly constructed desired pod template (see `isChanged`). -/
  desiredTemplate : PodTemplate

/-! ## Node lifecycle helpers -/

/-- Model of `scale`: deep-copy the desired object, `Get` the live object into
`self` (silently returning on failure), and if the live replica count differs
from the desired one, restore the desired count on `self` and push it via
`setReplicaCount` (whose failure is only logged). -/
def scale (env : Env) (s : Sim) : Sim × List Event :=
  let desired := s.node.self
  if env.scaleGet then
    let s := { s with node := { s.node with self := s.store } }
    if desired.replicas ≠ s.node.self.replicas then
      let self := { s.node.self with replicas := desired.replicas }
      let s := { s with node := { s.node with self := self } }
      let (s', ev, _) := setReplicaCount env.scaleRW s.node.self.replicas s
      (s', ev)
    else (s, [])
  else (s, [])

/-- Model of `create`: when the object has no resource version yet, `Create`
it (seeding the configmap/secret hashes on success, falling through to
`scale` when it already exists, erroring otherwise); when it has one, just
`scale`. -/
def create (env : Env) (s : Sim) : Sim × List Event × Option String :=
  if s.node.self.resourceVersion = "" then
    match env.createRes with
    | CRes.ok =>
      let self := { s.node.self with resourceVersion := "created" }
      let node := { s.node with
                    self := self
                    configmapHash := env.cmHash
                    secretHash := env.secHash }
      ({ s with node := node, store := self }, [Event.createSts], none)
    | CRes.alreadyExists =>
      let (s', ev) := scale env s
      (s', ev, none)
    | CRes.err => (s, [], some "could not create node resource")
  else
    let (s', ev) := scale env s
    (s', ev, none)

/-- Model of `refreshHashes`: re-read the configmap/secret content hashes and
adopt each one when it changed. -/
def refreshHashes (env : Env) (s : Sim) : Sim :=
  let cm := if env.rhCm ≠ s.node.configmapHash then env.rhCm else s.node.configmapHash
  let sec := if env.rhSec ≠ s.node.secretHash then env.rhSec else s.node.secretHash
  { s with node := { s.node with configmapHash := cm, secretHash := sec } }

/-- One attempt of `executeUpdate`'s retry body: `isChanged` re-fetches the
live object (and applies the desired template to `self` when it differs);
when changed, push `self` with `client.Update`. -/
def executeUpdateBody (env : Env) (k : Nat) (s : Sim) : Sim × List Event × APIResult :=
  match isChanged (env.euGet k) env.desiredTemplate s with
  | (s', true) =>
    match env.euUpd k with
    | APIResult.ok => ({ s' with store := s'.node.self }, [Event.specPush], APIResult.ok)
    | r => (s', [], r)
  | (s', false) => (s', [], APIResult.ok)

/-- Model of `executeUpdate`: conflict-retried push of a changed spec;
returns whether it succeeded. -/
def executeUpdate (env : Env) (s : Sim) : Sim × List Event × Bool :=
  match retryOnConflict (executeUpdateBody env) defaultRetrySteps 0 s with
  | (s', ev, APIResult.ok) => (s', ev, true)
  | (s', ev, _) => (s', ev, false)

/-! ## The per-ordinal loops

Each loop is `for index := ordinal; index > 0; index--` in the source; the
Lean fuel argument `k` is the current `index` (so the iteration with fuel
`k + 1` has `index = k + 1`), and the result flag says whether the loop ran
to completion (`false` = the enclosing call returned early). -/

/-- The `rollingRestart` per-ordinal loop body: wait for all nodes to rejoin,
delete the pod at `index - 1`, wait for it to leave, then record the
decrement with `setPartition(index - 1)` (failure only logged). -/
def rollingLoop (env : Env) (s : Sim) : Nat → Sim × List Event × Bool
  | 0 => (s, [], true)
  | k + 1 =>
    let index : Int := (k : Int) + 1
    let podName := s.node.self.name ++ "-" ++ toString (index - 1)
    match waitForNodeRejoinCluster s.node.clusterSize (env.loopRejoin k) with
    | (some _, _) => (s, [], false)
    | (none, _) =>
      if env.loopDelete k then
        match waitForNodeLeaveCluster s.node.clusterSize (env.loopLeave k) with
        | (some _, _) => (s, [Event.deletePod podName], false)
        | (none, _) =>
          match setPartition (env.loopSP k) (index - 1) s with
          | (s', ev1, _) =>
            match rollingLoop env s' k with
            | (s'', ev2, done) => (s'', Event.deletePod podName :: (ev1 ++ ev2), done)
      else (s, [], false)

/-- The `fullClusterRestart` per-ordinal loop body: delete the pod at
`index - 1`, wait for it to leave, then `setPartition(index - 1)` — no
pre-step rejoin wait. -/
def fullLoop (env : Env) (s : Sim) : Nat → Sim × List Event × Bool
  | 0 => (s, [], true)
  | k + 1 =>
    let index : Int := (k : Int) + 1
    let podName := s.node.self.name ++ "-" ++ toString (index - 1)
    if env.loopDelete k then
      match waitForNodeLeaveCluster s.node.clusterSize (env.loopLeave k) with
      | (some _, _) => (s, [Event.deletePod podName], false)
      | (none, _) =>
        match setPartition (env.loopSP k) (index - 1) s with
        | (s', ev1, _) =>
          match fullLoop env s' k with
          | (s'', ev2, done) => (s'', Event.deletePod podName :: (ev1 ++ ev2), done)
    else (s, [], false)

/-- The `update` per-ordinal loop body: wait for all nodes to rejoin, move the
partition down with `setPartition(index - 1)` (failure only logged) so the
platform replaces the next pod, then wait for that node to leave; wait
timeouts are propagated to the caller as errors. -/
def updateLoop (env : Env) (s : Sim) : Nat → Sim × List Event × Option String
  | 0 => (s, [], none)
  | k + 1 =>
    let index : Int := (k : Int) + 1
    match waitForNodeRejoinCluster s.node.clusterSize (env.loopRejoin k) with
    | (some _, _) => (s, [], some "timed out waiting for pods to rejoin cluster")
    | (none, _) =>
      match setPartition (env.loopSP k) (index - 1) s with
      | (s', ev1, _) =>
        match waitForNodeLeaveCluster s'.node.clusterSize (env.loopLeave k) with
        | (some _, _) => (s', ev1, some "timed out waiting for node to leave the cluster")
        | (none, _) =>
          match updateLoop env s' k with
          | (s'', ev2, r) => (s'', ev1 ++ ev2, r)

/-! ## Phase blocks and entry points -/

/-- The start block of `rollingRestart` (`UnderUpgrade != true`): require
"green" health, capture `clusterSize` and `replicaCount`, freeze the rollout
with `setPartition(replicas)`, set `UnderUpgrade`.  The `Bool` is `true` when
the block returned early (aborting the whole call). -/
def rollingStart (env : Env) (s : Sim) (us : UStatus) :
    Sim × List Event × UStatus × Bool :=
  if us.underUpgrade ≠ CondStatus.isTrue then
    if env.health ≠ "green" then (s, [], us, true)
    else
      match env.nodeCount with
      | (size, cntErr) =>
        if cntErr then (s, [], us, true)
        else
          let s := { s with node := { s.node with clusterSize := size } }
          match replicaCount env.rcGet s with
          | (replicas, rcOk) =>
            if rcOk then
              match setPartition env.spStart replicas s with
              | (s', ev, _) =>
                (s', ev, { us with underUpgrade := CondStatus.isTrue }, false)
            else (s, [], us, true)
  else (s, [], us, false)

/-- The start block of `fullClusterRestart`: capture `replicaCount` then
`clusterSize` (no health precondition), freeze the rollout, set
`UnderUpgrade`. -/
def fullStart (env : Env) (s : Sim) (us : UStatus) :
    Sim × List Event × UStatus × Bool :=
  if us.underUpgrade ≠ CondStatus.isTrue then
    match replicaCount env.rcGet s with
    | (replicas, rcOk) =>
      if rcOk then
        match env.nodeCount with
        | (size, cntErr) =>
          if cntErr then (s, [], us, true)
          else
            match setPartition env.spStart replicas s with
            | (s', ev, _) =>
              let s' := { s' with node := { s'.node with clusterSize := size } }
              (s', ev, { us with underUpgrade := CondStatus.isTrue }, false)
      else (s, [], us, true)
  else (s, [], us, false)

/-- The start block of `update`: require "green" health or return an explicit
error; a failed cluster-size fetch is only logged (`clusterSize` is still
assigned from the failed fetch's value); a failed replica fetch is an
error. -/
def updateStart (env : Env) (s : Sim) (us : UStatus) :
    Sim × List Event × UStatus × Option String :=
  if us.underUpgrade ≠ CondStatus.isTrue then
    if env.health ≠ "green" then
      (s, [], us, some "waiting for cluster to be fully recovered before restarting")
    else
      match env.nodeCount with
      | (size, _cntErr) =>
        let s := { s with node := { s.node with clusterSize := size } }
        match replicaCount env.rcGet s with
        | (replicas, rcOk) =>
          if rcOk then
            match setPartition env.spStart replicas s with
            | (s', ev, _) =>
              (s', ev, { us with underUpgrade := CondStatus.isTrue }, none)
          else (s, [], us, some "unable to get number of replicas prior to restart")
  else (s, [], us, none)

/-- The idle-phase advance shared by all three entry points: an empty or
`ControllerUpdated` phase moves to `NodeRestarting`. -/
def idleAdvance (us : UStatus) : UStatus :=
  if us.phase = Phase.empty ∨ us.phase = Phase.controllerUpdated then
    { us with phase := Phase.nodeRestarting }
  else us

/-- The `RecoveringData` block shared by all three entry points: an
unconditional pass-through to `ControllerUpdated`, clearing `UnderUpgrade`. -/
def recoverBlock (us : UStatus) : UStatus :=
  if us.phase = Phase.recoveringData then
    { us with phase := Phase.controllerUpdated, underUpgrade := CondStatus.unset }
  else us

/-- The `NodeRestarting` block of `rollingRestart`: recreate the object if
missing, read the partition ordinal, run the per-ordinal loop, wait once more
for full rejoin, refresh the hashes, advance to `RecoveringData`.  The `Bool`
is `true` when the block returned early. -/
def rollingNR (env : Env) (s : Sim) (us : UStatus) :
    Sim × List Event × UStatus × Bool :=
  if us.phase = Phase.nodeRestarting then
    let (s, ev0) :=
      if isMissing env.missRes then
        match create env s with
        | (s', ev', _) => (s', ev')
      else (s, [])
    match partitionRead env.partGet s with
    | (ordinal, pOk) =>
      if pOk then
        match rollingLoop env s ordinal.toNat with
        | (s', ev1, false) => (s', ev0 ++ ev1, us, true)
        | (s', ev1, true) =>
          match waitForNodeRejoinCluster s'.node.clusterSize env.finalRejoin with
          | (some _, _) => (s', ev0 ++ ev1, us, true)
          | (none, _) =>
            let s'' := refreshHashes env s'
            (s'', ev0 ++ ev1, { us with phase := Phase.recoveringData }, false)
      else (s, ev0, us, true)
  else (s, [], us, false)

/-- The `NodeRestarting` block of `fullClusterRestart`: read the partition
ordinal, run the per-ordinal loop, refresh the hashes, advance to
`RecoveringData` — no missing-object recreation and no final rejoin wait. -/
def fullNR (env : Env) (s : Sim) (us : UStatus) :
    Sim × List Event × UStatus × Bool :=
  if us.phase = Phase.nodeRestarting then
    match partitionRead env.partGet s with
    | (ordinal, pOk) =>
      if pOk then
        match fullLoop env s ordinal.toNat with
        | (s', ev1, false) => (s', ev1, us, true)
        | (s', ev1, true) =>
          let s'' := refreshHashes env s'
          (s'', ev1, { us with phase := Phase.recoveringData }, false)
      else (s, [], us, true)
  else (s, [], us, false)

/-- The `NodeRestarting` block of `update`: read the partition ordinal, run
the per-ordinal loop, wait once more for full rejoin, refresh the hashes,
advance to `RecoveringData`; failures are propagated as errors. -/
def updateNR (env : Env) (s : Sim) (us : UStatus) :
    Sim × List Event × UStatus × Option String :=
  if us.phase = Phase.nodeRestarting then
    match partitionRead env.partGet s with
    | (ordinal, pOk) =>
      if pOk then
        match updateLoop env s ordinal.toNat with
        | (s', ev1, some e) => (s', ev1, us, some e)
        | (s', ev1, none) =>
          match waitForNodeRejoinCluster s'.node.clusterSize env.finalRejoin with
          | (some _, _) =>
            (s', ev1, us, some "timed out waiting for pods to rejoin cluster")
          | (none, _) =>
            let s'' := refreshHashes env s'
            (s'', ev1, { us with phase := Phase.recoveringData }, none)
      else (s, [], us, some "unable to get node ordinal value")
  else (s, [], us, none)

/-- Model of `rollingRestart`: start block, idle-phase advance,
`NodeRestarting` block, `RecoveringData` block, in source order; an early
return in a block skips everything after it. -/
def rollingRestart (env : Env) (s : Sim) (us : UStatus) :
    Sim × List Event × UStatus :=
  match rollingStart env s us with
  | (s, ev, us, true) => (s, ev, us)
  | (s, ev, us, false) =>
    let us := idleAdvance us
    match rollingNR env s us with
    | (s', ev', us', true) => (s', ev ++ ev', us')
    | (s', ev', us', false) => (s', ev ++ ev', recoverBlock us')

/-- Model of `fullClusterRestart`: same skeleton as `rollingRestart` with the
full-restart start block and loop. -/
def fullClusterRestart (env : Env) (s : Sim) (us : UStatus) :
    Sim × List Event × UStatus :=
  match fullStart env s us with
  | (s, ev, us, true) => (s, ev, us)
  | (s, ev, us, false) =>
    let us := idleAdvance us
    match fullNR env s us with
    | (s', ev', us', true) => (s', ev ++ ev', us')
    | (s', ev', us', false) => (s', ev ++ ev', recoverBlock us')

/-- The tail of `update` after the idle-phase block: `NodeRestarting` block
then `RecoveringData` block, with errors propagated. -/
def updateRest (env : Env) (s : Sim) (ev : List Event) (us : UStatus) :
    Sim × List Event × UStatus × Option String :=
  match updateNR env s us with
  | (s', ev', us', some e) => (s', ev ++ ev', us', some e)
  | (s', ev', us', none) => (s', ev ++ ev', recoverBlock us', none)

/-- Model of `update`: start block (health-gated, caller-visible errors),
then — in the idle phase — a conflict-retried push of the new spec before
advancing to `NodeRestarting`, then the `NodeRestarting` and
`RecoveringData` blocks. -/
def update (env : Env) (s : Sim) (us : UStatus) :
    Sim × List Event × UStatus × Option String :=
  match updateStart env s us with
  | (s, ev, us, some e) => (s, ev, us, some e)
  | (s, ev, us, none) =>
    if us.phase = Phase.empty ∨ us.phase = Phase.controllerUpdated then
      match executeUpdate env s with
      | (s', ev', false) => (s', ev ++ ev', us, some "failed to update node resource")
      | (s', ev', true) =>
        updateRest env s' (ev ++ ev') { us with phase := Phase.nodeRestarting }
    else updateRest env s ev us

/-! ## Observations used by the claims -/

/-- The three phase-advancing entry points. -/
inductive EntryPoint
  | rolling
  | full
  | upd
  deriving DecidableEq, Repr

/-- One reconcile-driven call of an entry point (`update`'s returned error is
not part of the persisted status). -/
def step : EntryPoint → Env → Sim → UStatus → Sim × List Event × UStatus
  | EntryPoint.rolling, env, s, us => rollingRestart env s us
  | EntryPoint.full, env, s, us => fullClusterRestart env s us
  | EntryPoint.upd, env, s, us =>
    match update env s us with
    | (s', ev, us', _) => (s', ev, us')

/-- The phases observed after each call of a call sequence. -/
def runPhases : Sim → UStatus → List (EntryPoint × Env) → List Phase
  | _, _, [] => []
  | s, us, c :: rest =>
    match step c.1 c.2 s us with
    | (s', _, us') => us'.phase :: runPhases s' us' rest

/-- The forward order of the upgrade cycle
`Empty/ControllerUpdated → NodeRestarting → RecoveringData → ControllerUpdated`:
`callOk a b` says a call may move the phase from `a` to `b` without going
backwards. -/
def callOk : Phase → Phase → Bool
  | Phase.empty, _ => true
  | Phase.nodeRestarting, p => decide (p ≠ Phase.empty)
  | Phase.recoveringData, p =>
    decide (p = Phase.recoveringData ∨ p = Phase.controllerUpdated)
  | Phase.controllerUpdated, p => decide (p ≠ Phase.empty)

/-- The partition values of the `setPartition` events of a trace, in order. -/
def partitionWrites : List Event → List Int
  | [] => []
  | Event.setPartition n :: rest => n :: partitionWrites rest
  | _ :: rest => partitionWrites rest

/-- The per-ordinal targets of a loop entered with ordinal `k`:
`k - 1, k - 2, …, 0`. -/
def loopTargets : Nat → List Int
  | 0 => []
  | k + 1 => (k : Int) :: loopTargets k

/-- All external calls of the first `k` per-ordinal loop iterations succeed:
rejoin and leave waits return nil, pod deletion works, and the iteration's
`setPartition` first attempt goes through. -/
def loopAllOk (env : Env) (cs : Int) (k : Nat) : Prop :=
  ∀ j, j < k →
    (waitForNodeRejoinCluster cs (env.loopRejoin j)).1 = none
    ∧ env.loopDelete j = true
    ∧ (waitForNodeLeaveCluster cs (env.loopLeave j)).1 = none
    ∧ (env.loopSP j).getOk 0 = true ∧ (env.loopSP j).upd 0 = APIResult.ok

/-! ## Concrete fixtures

A small healthy three-replica node group and an environment in which every
external call succeeds, used for counterexamples and witnesses. -/

/-- A pod template. -/
def tmplA : PodTemplate := { image := "img-a", envVars := [] }

/-- A second, different pod template. -/
def tmplB : PodTemplate := { image := "img-b", envVars := [("k", "v")] }

/-- A three-replica StatefulSet whose rollout partition is 3. -/
def stsA : StatefulSet :=
  { name := "es-data", resourceVersion := "1", replicas := 3, part := 3,
    template := tmplA, statusReplicas := 3 }

/-- The node receiver for `stsA` in a three-node cluster. -/
def nodeA : Node :=
  { self := stsA, configmapHash := "cm", secretHash := "sec",
    clusterName := "es", clusterSize := 3 }

/-- Simulation state where the live object agrees with the receiver. -/
def simA : Sim := { node := nodeA, store := stsA }

/-- A StatefulSet whose spec asks for 1 replica while its status reports 5. -/
def stsB : StatefulSet :=
  { name := "es-data", resourceVersion := "1", replicas := 1, part := 3,
    template := tmplA, statusReplicas := 5 }

/-- Simulation state for `stsB`. -/
def simB : Sim := { node := { nodeA with self := stsB }, store := stsB }

/-- Read-modify-write outcomes where every attempt succeeds. -/
def rwOK : RWEnv := { getOk := fun _ => true, upd := fun _ => APIResult.ok }

/-- Read-modify-write outcomes where every update fails with a non-conflict
error. -/
def rwErr : RWEnv := { getOk := fun _ => true, upd := fun _ => APIResult.err }

/-- An environment in which every external call succeeds: health green, node
counts as expected by the waits, all writes applied. -/
def envOK : Env :=
  { health := "green", nodeCount := (3, false), rcGet := true, spStart := rwOK,
    missRes := GetRes.ok, createRes := CRes.ok, cmHash := "cm", secHash := "sec",
    scaleGet := true, scaleRW := rwOK, partGet := true,
    loopRejoin := fun _ _ => (3, false), loopDelete := fun _ => true,
    loopLeave := fun _ _ => (2, false), loopSP := fun _ => rwOK,
    finalRejoin := fun _ => (3, false), rhCm := "cm", rhSec := "sec",
    euGet := fun _ => true, euUpd := fun _ => APIResult.ok,
    desiredTemplate := tmplA }

/-- The all-success environment with cluster health "yellow". -/
def envYellow : Env := { envOK with health := "yellow" }

/-- The all-success environment except that the first per-ordinal decrement
(the `setPartition` of loop iteration `index = 2`) fails with a non-conflict
error. -/
def envC3 : Env :=
  { envOK with loopSP := fun k => if k = 1 then rwErr else rwOK }

/-- The all-success environment except that the upgrade-start node-count
fetch fails, returning 0. -/
def envCntErr : Env := { envOK with nodeCount := (0, true) }

/-- The all-success environment except that the upgrade-start replica-count
fetch fails. -/
def envRcErr : Env := { envOK with rcGet := false }

/-- An idle upgrade status: `UnderUpgrade` unset, empty phase. -/
def usIdle : UStatus := { underUpgrade := CondStatus.unset, phase := Phase.empty }

/-- Simulation state whose live partition is 2 (loop entry ordinal 2). -/
def simC3 : Sim :=
  { node := nodeA, store := { stsA with part := 2 } }

/-! ## Helper lemmas -/

/-- The rejoin poll condition reduces to the node-count comparison: its dead
error branch never fires. -/
lemma rejoinCond_eq (cs : Int) (f : Int × Bool) :
    rejoinCond cs f = (decide (cs ≤ f.1), none) := by
  simp [rejoinCond]

/-- The leave poll condition reduces to the node-count comparison: its dead
error branch never fires. -/
lemma leaveCond_eq (cs : Int) (f : Int × Bool) :
    leaveCond cs f = (decide (cs > f.1), none) := by
  simp [leaveCond]

/-- Characterisation of `pollLoop` for a condition that never errors: it
returns success exactly when the condition holds at some tick within the
fuel, and the timeout error otherwise. -/
lemma pollLoop_spec (cond : Int × Bool → Bool × Option PollErr)
    (obs : Nat → Int × Bool) (h : ∀ f, (cond f).2 = none) :
    ∀ (fuel i : Nat),
      (pollLoop cond obs i fuel = none ↔ ∃ j, j < fuel ∧ (cond (obs (i + j))).1 = true) ∧
      (pollLoop cond obs i fuel = none ∨ pollLoop cond obs i fuel = some PollErr.timeout) := by
  intro fuel
  induction fuel with
  | zero =>
    intro i
    refine ⟨?_, Or.inr rfl⟩
    simp [pollLoop]
  | succ n ih =>
    intro i
    have hc := h (obs i)
    rcases he : cond (obs i) with ⟨d, e⟩
    rw [he] at hc
    subst hc
    cases d with
    | true =>
      have hres : pollLoop cond obs i (n + 1) = none := by
        conv_lhs => unfold pollLoop
        rw [he]
      refine ⟨?_, Or.inl hres⟩
      rw [hres]
      simp only [true_iff]
      exact ⟨0, Nat.succ_pos n, by rw [Nat.add_zero, he]⟩
    | false =>
      have hstep : pollLoop cond obs i (n + 1) = pollLoop cond obs (i + 1) n := by
        conv_lhs => unfold pollLoop
        rw [he]
      refine ⟨?_, by rw [hstep]; exact (ih (i + 1)).2⟩
      rw [hstep, (ih (i + 1)).1]
      constructor
      · rintro ⟨j, hj, hcj⟩
        refine ⟨j + 1, by omega, ?_⟩
        have : i + (j + 1) = i + 1 + j := by omega
        rw [this]
        exact hcj
      · rintro ⟨j, hj, hcj⟩
        cases j with
        | zero =>
          rw [Nat.add_zero, he] at hcj
          exact absurd hcj (by simp)
        | succ j' =>
          refine ⟨j', by omega, ?_⟩
          have : i + 1 + j' = i + (j' + 1) := by omega
          rw [this]
          exact hcj

/-- A state predicate preserved by every attempt body is preserved by the
whole conflict-retry loop. -/
lemma retryOnConflict_preserve (body : Nat → Sim → Sim × List Event × APIResult)
    (P : Sim → Prop) (hbody : ∀ k s, P s → P (body k s).1) :
    ∀ steps k s, P s → P (retryOnConflict body steps k s).1 := by
  intro steps
  induction steps with
  | zero =>
    intro k s hp
    simpa [retryOnConflict] using hp
  | succ n ih =>
    intro k s hp
    unfold retryOnConflict
    rcases hb : body k s with ⟨s', ev, r⟩
    have hp' : P s' := by
      have := hbody k s hp
      rw [hb] at this
      exact this
    cases r <;> simp [hp', ih (k + 1) s' hp']

/-- When the first attempt's get and update succeed, `setPartition` succeeds,
writes exactly when the live partition differs from the target, and leaves
the state fully characterised. -/
lemma setPartition_ok (env : RWEnv) (n : Int) (s : Sim)
    (hget : env.getOk 0 = true) (hupd : env.upd 0 = APIResult.ok) :
    setPartition env n s =
      (if s.store.part = n then
        ({ s with node := { s.node with self := s.store } }, [], true)
       else
        ({ s with
           node := { s.node with self := { s.store with part := n } }
           store := { s.store with part := n } },
         [Event.setPartition n], true)) := by
  by_cases h : s.store.part = n <;>
    simp [setPartition, retryOnConflict, setPartitionBody, hget, hupd, h]

/-- When the first attempt's get and update succeed, `setReplicaCount`
succeeds and writes `Spec.Replicas` (not `Status.Replicas`), leaving the
state fully characterised. -/
lemma setReplicaCount_ok (env : RWEnv) (n : Int) (s : Sim)
    (hget : env.getOk 0 = true) (hupd : env.upd 0 = APIResult.ok) :
    setReplicaCount env n s =
      (if s.store.replicas = n then
        ({ s with node := { s.node with self := s.store } }, [], true)
       else
        ({ s with
           node := { s.node with self := { s.store with replicas := n } }
           store := { s.store with replicas := n } },
         [Event.setReplicas n], true)) := by
  by_cases h : s.store.replicas = n <;>
    simp [setReplicaCount, retryOnConflict, setReplicaCountBody, hget, hupd, h]

/-- A `setPartition` call never changes the recorded cluster size, the
status replica count of the live object, or the live object's name. -/
lemma setPartition_preserve (env : RWEnv) (n : Int) (s : Sim) :
    ((setPartition env n s).1).node.clusterSize = s.node.clusterSize
    ∧ ((setPartition env n s).1).store.statusReplicas = s.store.statusReplicas
    ∧ ((setPartition env n s).1).store.name = s.store.name := by
  have h := retryOnConflict_preserve (setPartitionBody env n)
    (fun t => t.node.clusterSize = s.node.clusterSize
      ∧ t.store.statusReplicas = s.store.statusReplicas
      ∧ t.store.name = s.store.name)
    (by
      intro k t ht
      unfold setPartitionBody
      by_cases hg : env.getOk k = true
      · by_cases hp : t.store.part = n
        · simpa [hg, hp] using ht
        · rcases hu : env.upd k <;> simpa [hg, hp, hu] using ht
      · simpa [hg] using ht)
    defaultRetrySteps 0 s ⟨rfl, rfl, rfl⟩
  rcases hr : retryOnConflict (setPartitionBody env n) defaultRetrySteps 0 s with ⟨s', ev, r⟩
  rw [hr] at h
  cases r <;> simpa [setPartition, hr] using h

/-- `partitionWrites` distributes over trace concatenation. -/
lemma partitionWrites_append (a b : List Event) :
    partitionWrites (a ++ b) = partitionWrites a ++ partitionWrites b := by
  induction a with
  | nil => simp [partitionWrites]
  | cons e rest ih => cases e <;> simp [partitionWrites, ih]

/-- If every attempt's partition writes are a sublist of `l` and conflicted
attempts write nothing, the whole retry loop's partition writes are a
sublist of `l`. -/
lemma retryOnConflict_writes_sub (body : Nat → Sim → Sim × List Event × APIResult)
    (l : List Int)
    (h1 : ∀ k s, List.Sublist (partitionWrites (body k s).2.1) l)
    (h2 : ∀ k s, (body k s).2.2 = APIResult.conflict →
      partitionWrites (body k s).2.1 = []) :
    ∀ steps k s, List.Sublist (partitionWrites (retryOnConflict body steps k s).2.1) l := by
  intro steps
  induction steps with
  | zero => intro k s; simp [retryOnConflict, partitionWrites]
  | succ n ih =>
    intro k s
    unfold retryOnConflict
    rcases hb : body k s with ⟨s', ev, r⟩
    cases r with
    | conflict =>
      have hev : partitionWrites ev = [] := by
        have h := h2 k s
        rw [hb] at h
        exact h rfl
      rcases hrec : retryOnConflict body n (k + 1) s' with ⟨s'', ev', r'⟩
      have h := ih (k + 1) s'
      rw [hrec] at h
      simpa [hb, hrec, partitionWrites_append, hev] using h
    | ok =>
      have h := h1 k s
      rw [hb] at h
      simpa using h
    | err =>
      have h := h1 k s
      rw [hb] at h
      simpa using h

/-- One `setPartitionBody` attempt writes at most the target value, and a
conflicted attempt writes nothing. -/
lemma setPartitionBody_writes (env : RWEnv) (n : Int) (k : Nat) (s : Sim) :
    List.Sublist (partitionWrites (setPartitionBody env n k s).2.1) [n]
    ∧ ((setPartitionBody env n k s).2.2 = APIResult.conflict →
        partitionWrites (setPartitionBody env n k s).2.1 = []) := by
  unfold setPartitionBody
  by_cases hg : env.getOk k = true
  · by_cases hp : s.store.part = n
    · simp [hg, hp, partitionWrites]
    · rcases hu : env.upd k <;> simp [hg, hp, hu, partitionWrites]
  · simp [hg, partitionWrites]

/-- A whole `setPartition` call writes at most the target value. -/
lemma setPartition_writes_sub (env : RWEnv) (n : Int) (s : Sim) :
    List.Sublist (partitionWrites (setPartition env n s).2.1) [n] := by
  have h := retryOnConflict_writes_sub (setPartitionBody env n) [n]
    (fun k s => (setPartitionBody_writes env n k s).1)
    (fun k s => (setPartitionBody_writes env n k s).2)
    defaultRetrySteps 0 s
  rcases hr : retryOnConflict (setPartitionBody env n) defaultRetrySteps 0 s with ⟨s', ev, r⟩
  rw [hr] at h
  cases r <;> simpa [setPartition, hr] using h

/-- Membership in `loopTargets k` is exactly the interval `[0, k)`. -/
lemma loopTargets_mem (k : Nat) (x : Int) :
    x ∈ loopTargets k ↔ 0 ≤ x ∧ x < (k : Int) := by
  induction k with
  | zero => simp [loopTargets]
  | succ n ih =>
    simp only [loopTargets, List.mem_cons, ih]
    omega

/-- The per-ordinal targets are strictly decreasing. -/
lemma loopTargets_pairwise (k : Nat) : (loopTargets k).Pairwise (· > ·) := by
  induction k with
  | zero => simp [loopTargets]
  | succ n ih =>
    refine List.Pairwise.cons ?_ ih
    intro x hx
    rw [loopTargets_mem] at hx
    omega

/-- The partition writes of the `rollingRestart` per-ordinal loop follow the
local countdown: they are a sublist of `k - 1, …, 0` whatever the
environment does. -/
lemma rollingLoop_writes_sub (env : Env) :
    ∀ (k : Nat) (s : Sim),
      List.Sublist (partitionWrites (rollingLoop env s k).2.1) (loopTargets k) := by
  intro k
  induction k with
  | zero => intro s; simp [rollingLoop, partitionWrites, loopTargets]
  | succ n ih =>
    intro s
    unfold rollingLoop
    rcases hw : waitForNodeRejoinCluster s.node.clusterSize (env.loopRejoin n) with ⟨e, b⟩
    cases e with
    | some pe => simp [partitionWrites]
    | none =>
      by_cases hd : env.loopDelete n = true
      · rcases hl : waitForNodeLeaveCluster s.node.clusterSize (env.loopLeave n) with ⟨e2, b2⟩
        cases e2 with
        | some pe => simp [hd, partitionWrites]
        | none =>
          rcases hsp : setPartition (env.loopSP n) ((n : Int) + 1 - 1) s with ⟨s', ev1, ok⟩
          rcases hrec : rollingLoop env s' n with ⟨s'', ev2, done⟩
          have h1 : List.Sublist (partitionWrites ev1) [(n : Int)] := by
            have h := setPartition_writes_sub (env.loopSP n) ((n : Int) + 1 - 1) s
            rw [hsp] at h
            simpa using h
          have h2 := ih s'
          rw [hrec] at h2
          have h3 := List.Sublist.append h1 h2
          simp only [hd, hsp, hrec]
          simpa [partitionWrites, partitionWrites_append, loopTargets] using h3
      · simp [hd, partitionWrites]

/-- The partition writes of the `fullClusterRestart` per-ordinal loop follow
the local countdown. -/
lemma fullLoop_writes_sub (env : Env) :
    ∀ (k : Nat) (s : Sim),
      List.Sublist (partitionWrites (fullLoop env s k).2.1) (loopTargets k) := by
  intro k
  induction k with
  | zero => intro s; simp [fullLoop, partitionWrites, loopTargets]
  | succ n ih =>
    intro s
    unfold fullLoop
    by_cases hd : env.loopDelete n = true
    · rcases hl : waitForNodeLeaveCluster s.node.clusterSize (env.loopLeave n) with ⟨e2, b2⟩
      cases e2 with
      | some pe => simp [hd, partitionWrites]
      | none =>
        rcases hsp : setPartition (env.loopSP n) ((n : Int) + 1 - 1) s with ⟨s', ev1, ok⟩
        rcases hrec : fullLoop env s' n with ⟨s'', ev2, done⟩
        have h1 : List.Sublist (partitionWrites ev1) [(n : Int)] := by
          have h := setPartition_writes_sub (env.loopSP n) ((n : Int) + 1 - 1) s
          rw [hsp] at h
          simpa using h
        have h2 := ih s'
        rw [hrec] at h2
        have h3 := List.Sublist.append h1 h2
        simp only [hd, hsp, hrec]
        simpa [partitionWrites, partitionWrites_append, loopTargets] using h3
    · simp [hd, partitionWrites]

/-- The partition writes of the `update` per-ordinal loop follow the local
countdown. -/
lemma updateLoop_writes_sub (env : Env) :
    ∀ (k : Nat) (s : Sim),
      List.Sublist (partitionWrites (updateLoop env s k).2.1) (loopTargets k) := by
  intro k
  induction k with
  | zero => intro s; simp [updateLoop, partitionWrites, loopTargets]
  | succ n ih =>
    intro s
    unfold updateLoop
    rcases hw : waitForNodeRejoinCluster s.node.clusterSize (env.loopRejoin n) with ⟨e, b⟩
    cases e with
    | some pe => simp [partitionWrites]
    | none =>
      rcases hsp : setPartition (env.loopSP n) ((n : Int) + 1 - 1) s with ⟨s', ev1, ok⟩
      rcases hl : waitForNodeLeaveCluster s'.node.clusterSize (env.loopLeave n) with ⟨e2, b2⟩
      have h1 : List.Sublist (partitionWrites ev1) [(n : Int)] := by
        have h := setPartition_writes_sub (env.loopSP n) ((n : Int) + 1 - 1) s
        rw [hsp] at h
        simpa using h
      cases e2 with
      | some pe =>
        simp only [hsp, hl]
        have : List.Sublist (partitionWrites ev1) (loopTargets (n + 1)) := by
          refine List.Sublist.trans h1 ?_
          simp [loopTargets]
        simpa [partitionWrites] using this
      | none =>
        rcases hrec : updateLoop env s' n with ⟨s'', ev2, r⟩
        have h2 := ih s'
        rw [hrec] at h2
        have h3 := List.Sublist.append h1 h2
        simp only [hsp, hl, hrec]
        simpa [partitionWrites, partitionWrites_append, loopTargets] using h3

/-- When every external call of the loop succeeds and the loop is entered
with the live partition equal to its fuel `k`, the `rollingRestart` loop
completes and writes exactly `k - 1, …, 0`. -/
lemma rollingLoop_success (env : Env) (cs : Int) :
    ∀ (k : Nat) (s : Sim), s.node.clusterSize = cs → s.store.part = (k : Int) →
      loopAllOk env cs k →
      partitionWrites (rollingLoop env s k).2.1 = loopTargets k
      ∧ (rollingLoop env s k).2.2 = true := by
  intro k
  induction k with
  | zero => intro s hcs hp hall; simp [rollingLoop, partitionWrites, loopTargets]
  | succ n ih =>
    intro s hcs hp hall
    obtain ⟨hrj, hdel, hlv, hgo, hupd⟩ := hall n (Nat.lt_succ_self n)
    unfold rollingLoop
    rw [hcs]
    rcases hw : waitForNodeRejoinCluster cs (env.loopRejoin n) with ⟨e, b⟩
    have he : e = none := by rw [hw] at hrj; exact hrj
    subst he
    rcases hl : waitForNodeLeaveCluster cs (env.loopLeave n) with ⟨e2, b2⟩
    have he2 : e2 = none := by rw [hl] at hlv; exact hlv
    subst he2
    have hne : ¬ s.store.part = (n : Int) + 1 - 1 := by rw [hp]; omega
    have hchar := setPartition_ok (env.loopSP n) ((n : Int) + 1 - 1) s hgo hupd
    rw [if_neg hne] at hchar
    have hih := ih { s with
        node := { s.node with self := { s.store with part := (n : Int) + 1 - 1 } }
        store := { s.store with part := (n : Int) + 1 - 1 } }
      (by simpa using hcs) (by simp)
      (fun j hj => hall j (Nat.lt_succ_of_lt hj))
    rcases hrec : rollingLoop env { s with
        node := { s.node with self := { s.store with part := (n : Int) + 1 - 1 } }
        store := { s.store with part := (n : Int) + 1 - 1 } } n with ⟨s'', ev2, done⟩
    rw [hrec] at hih
    simp only [hw, hdel, hl, hchar, hrec, if_true]
    constructor
    · simp [partitionWrites, partitionWrites_append, hih.1, loopTargets]
    · exact hih.2

/-- When every external call of the loop succeeds and the loop is entered
with the live partition equal to its fuel `k`, the `fullClusterRestart` loop
completes and writes exactly `k - 1, …, 0`. -/
lemma fullLoop_success (env : Env) (cs : Int) :
    ∀ (k : Nat) (s : Sim), s.node.clusterSize = cs → s.store.part = (k : Int) →
      loopAllOk env cs k →
      partitionWrites (fullLoop env s k).2.1 = loopTargets k
      ∧ (fullLoop env s k).2.2 = true := by
  intro k
  induction k with
  | zero => intro s hcs hp hall; simp [fullLoop, partitionWrites, loopTargets]
  | succ n ih =>
    intro s hcs hp hall
    obtain ⟨hrj, hdel, hlv, hgo, hupd⟩ := hall n (Nat.lt_succ_self n)
    unfold fullLoop
    rw [hcs]
    rcases hl : waitForNodeLeaveCluster cs (env.loopLeave n) with ⟨e2, b2⟩
    have he2 : e2 = none := by rw [hl] at hlv; exact hlv
    subst he2
    have hne : ¬ s.store.part = (n : Int) + 1 - 1 := by rw [hp]; omega
    have hchar := setPartition_ok (env.loopSP n) ((n : Int) + 1 - 1) s hgo hupd
    rw [if_neg hne] at hchar
    have hih := ih { s with
        node := { s.node with self := { s.store with part := (n : Int) + 1 - 1 } }
        store := { s.store with part := (n : Int) + 1 - 1 } }
      (by simpa using hcs) (by simp)
      (fun j hj => hall j (Nat.lt_succ_of_lt hj))
    rcases hrec : fullLoop env { s with
        node := { s.node with self := { s.store with part := (n : Int) + 1 - 1 } }
        store := { s.store with part := (n : Int) + 1 - 1 } } n with ⟨s'', ev2, done⟩
    rw [hrec] at hih
    simp only [hdel, hl, hchar, hrec, if_true]
    constructor
    · simp [partitionWrites, partitionWrites_append, hih.1, loopTargets]
    · exact hih.2

/-- The start block of `rollingRestart` never changes the phase. -/
lemma rollingStart_phase (env : Env) (s : Sim) (us : UStatus) :
    ((rollingStart env s us).2.2.1).phase = us.phase := by
  unfold rollingStart
  repeat' split
  all_goals try simp
  all_goals repeat' split
  all_goals simp

/-- The start block of `fullClusterRestart` never changes the phase. -/
lemma fullStart_phase (env : Env) (s : Sim) (us : UStatus) :
    ((fullStart env s us).2.2.1).phase = us.phase := by
  unfold fullStart
  repeat' split
  all_goals simp

/-- The start block of `update` never changes the phase. -/
lemma updateStart_phase (env : Env) (s : Sim) (us : UStatus) :
    ((updateStart env s us).2.2.1).phase = us.phase := by
  unfold updateStart
  repeat' split
  all_goals try simp
  all_goals repeat' split
  all_goals simp

/-- The `NodeRestarting` block of `rollingRestart` leaves the status alone or
advances a `NodeRestarting` phase to `RecoveringData`. -/
lemma rollingNR_cases (env : Env) (s : Sim) (us : UStatus) :
    (rollingNR env s us).2.2.1 = us
    ∨ ((rollingNR env s us).2.2.1 = { us with phase := Phase.recoveringData }
        ∧ us.phase = Phase.nodeRestarting) := by
  unfold rollingNR
  repeat' split
  all_goals simp_all

/-- The `NodeRestarting` block of `fullClusterRestart` leaves the status
alone or advances a `NodeRestarting` phase to `RecoveringData`. -/
lemma fullNR_cases (env : Env) (s : Sim) (us : UStatus) :
    (fullNR env s us).2.2.1 = us
    ∨ ((fullNR env s us).2.2.1 = { us with phase := Phase.recoveringData }
        ∧ us.phase = Phase.nodeRestarting) := by
  unfold fullNR
  repeat' split
  all_goals simp_all

/-- The `NodeRestarting` block of `update` leaves the status alone or
advances a `NodeRestarting` phase to `RecoveringData`. -/
lemma updateNR_cases (env : Env) (s : Sim) (us : UStatus) :
    (updateNR env s us).2.2.1 = us
    ∨ ((updateNR env s us).2.2.1 = { us with phase := Phase.recoveringData }
        ∧ us.phase = Phase.nodeRestarting) := by
  unfold updateNR
  repeat' split
  all_goals simp_all

/-- `callOk` is reflexive: staying in place is never a regression. -/
lemma callOk_refl (p : Phase) : callOk p p = true := by
  cases p <;> rfl

/-- A step allowed from `NodeRestarting` is allowed from either idle
phase. -/
lemma callOk_of_nr (p q : Phase)
    (hq : q = Phase.empty ∨ q = Phase.controllerUpdated)
    (h : callOk Phase.nodeRestarting p = true) : callOk q p = true := by
  rcases hq with rfl | rfl <;> cases p <;> simp_all [callOk]

/-- One `rollingRestart` call never moves the phase backwards. -/
lemma rollingRestart_phase_ok (env : Env) (s : Sim) (us : UStatus) :
    callOk us.phase ((rollingRestart env s us).2.2).phase = true := by
  unfold rollingRestart
  rcases hs : rollingStart env s us with ⟨s1, ev1, us1, ab⟩
  have h1 : us1.phase = us.phase := by
    have h := rollingStart_phase env s us
    rw [hs] at h
    exact h
  cases ab with
  | true =>
    rw [h1]
    exact callOk_refl us.phase
  | false =>
    rcases hnr : rollingNR env s1 (idleAdvance us1) with ⟨s2, ev2, us3, ab2⟩
    have h2 := rollingNR_cases env s1 (idleAdvance us1)
    rw [hnr] at h2
    rcases h2 with h2 | ⟨h2, h2'⟩ <;> cases ab2 <;> cases hph : us.phase <;>
      simp_all [idleAdvance, recoverBlock, callOk]

/-- One `fullClusterRestart` call never moves the phase backwards. -/
lemma fullClusterRestart_phase_ok (env : Env) (s : Sim) (us : UStatus) :
    callOk us.phase ((fullClusterRestart env s us).2.2).phase = true := by
  unfold fullClusterRestart
  rcases hs : fullStart env s us with ⟨s1, ev1, us1, ab⟩
  have h1 : us1.phase = us.phase := by
    have h := fullStart_phase env s us
    rw [hs] at h
    exact h
  cases ab with
  | true =>
    rw [h1]
    exact callOk_refl us.phase
  | false =>
    rcases hnr : fullNR env s1 (idleAdvance us1) with ⟨s2, ev2, us3, ab2⟩
    have h2 := fullNR_cases env s1 (idleAdvance us1)
    rw [hnr] at h2
    rcases h2 with h2 | ⟨h2, h2'⟩ <;> cases ab2 <;> cases hph : us.phase <;>
      simp_all [idleAdvance, recoverBlock, callOk]

/-- The tail of `update` never moves the phase backwards. -/
lemma updateRest_phase_ok (env : Env) (s : Sim) (ev : List Event) (us : UStatus) :
    callOk us.phase (((updateRest env s ev us).2.2.1)).phase = true := by
  unfold updateRest
  rcases hnr : updateNR env s us with ⟨s1, ev1, us1, r⟩
  have h2 := updateNR_cases env s us
  rw [hnr] at h2
  cases r <;>
    (rcases h2 with h2 | ⟨h2, h2'⟩ <;> cases hph : us.phase <;>
      simp_all [recoverBlock, callOk])

/-- One `update` call never moves the phase backwards. -/
lemma update_phase_ok (env : Env) (s : Sim) (us : UStatus) :
    callOk us.phase ((update env s us).2.2.1).phase = true := by
  unfold update
  rcases hs : updateStart env s us with ⟨s1, ev1, us1, r⟩
  have h1 : us1.phase = us.phase := by
    have h := updateStart_phase env s us
    rw [hs] at h
    exact h
  cases r with
  | some e =>
    rw [h1]
    exact callOk_refl us.phase
  | none =>
    dsimp only
    by_cases hidle : us1.phase = Phase.empty ∨ us1.phase = Phase.controllerUpdated
    · rw [if_pos hidle]
      rcases he : executeUpdate env s1 with ⟨s2, ev2, okb⟩
      cases okb with
      | false =>
        rw [h1]
        exact callOk_refl us.phase
      | true =>
        have h3 := updateRest_phase_ok env s2 (ev1 ++ ev2)
          { us1 with phase := Phase.nodeRestarting }
        refine callOk_of_nr _ us.phase ?_ ?_
        · rw [← h1]
          exact hidle
        · simpa using h3
    · rw [if_neg hidle]
      have h3 := updateRest_phase_ok env s1 ev1 us1
      rw [h1] at h3
      exact h3

/-- No single call of any entry point moves the phase backwards. -/
lemma step_phase_ok (e : EntryPoint) (env : Env) (s : Sim) (us : UStatus) :
    callOk us.phase ((step e env s us).2.2).phase = true := by
  cases e with
  | rolling => exact rollingRestart_phase_ok env s us
  | full => exact fullClusterRestart_phase_ok env s us
  | upd =>
    unfold step
    dsimp only
    rcases hu : update env s us with ⟨s1, ev1, us1, r⟩
    have h := update_phase_ok env s us
    rw [hu] at h
    simpa using h

/-! ## Claims -/

/-- C4 counterexample: on a live object whose spec asks for 1 replica while
its status reports 5, a fully successful `setReplicaCount 3` (the write is
applied and observed: the live `Spec.Replicas` becomes 3) followed by
`replicaCount` returns 5, not 3 — `setReplicaCount` writes `Spec.Replicas`
while `replicaCount` reads `Status.Replicas`, so the claimed round-trip for
the replica count fails. -/
theorem c4_counterexample :
    (setReplicaCount rwOK 3 simB).2.2 = true
    ∧ ((setReplicaCount rwOK 3 simB).1).store.replicas = 3
    ∧ replicaCount true (setReplicaCount rwOK 3 simB).1 = (5, true) := by
  decide

/-- C4 amended: with the write observed (first get and update succeed),
`setPartition n` followed by `partition()` returns `n`; `setReplicaCount n`
round-trips on the field it writes — the live `Spec.Replicas` becomes `n` —
but `replicaCount()` returns the live `Status.Replicas`, which the write
leaves untouched. -/
theorem c4_roundtrip (env : RWEnv) (s : Sim) (n : Int)
    (hget : env.getOk 0 = true) (hupd : env.upd 0 = APIResult.ok) :
    ((setPartition env n s).2.2 = true
      ∧ partitionRead true (setPartition env n s).1 = (n, true))
    ∧ ((setReplicaCount env n s).2.2 = true
      ∧ ((setReplicaCount env n s).1).store.replicas = n
      ∧ replicaCount true (setReplicaCount env n s).1 = (s.store.statusReplicas, true)) := by
  rw [setPartition_ok env n s hget hupd, setReplicaCount_ok env n s hget hupd]
  by_cases hp : s.store.part = n <;> by_cases hr : s.store.replicas = n <;>
    simp [hp, hr, partitionRead, replicaCount]

/-- Witness for C4 amended at the all-success outcomes on the concrete
three-replica state. -/
theorem c4_roundtrip_witness :
    ((setPartition rwOK 7 simA).2.2 = true
      ∧ partitionRead true (setPartition rwOK 7 simA).1 = (7, true))
    ∧ ((setReplicaCount rwOK 7 simA).2.2 = true
      ∧ ((setReplicaCount rwOK 7 simA).1).store.replicas = 7
      ∧ replicaCount true (setReplicaCount rwOK 7 simA).1 = (simA.store.statusReplicas, true)) :=
  c4_roundtrip rwOK simA 7 rfl rfl

/-- C9: `isChanged` returns false whenever the fetch of the live object
fails, and on a successful fetch returns true exactly when the live pod
template differs structurally from the freshly constructed desired
template. -/
theorem c9_isChanged (getOk : Bool) (desired : PodTemplate) (s : Sim) :
    (getOk = false → (isChanged getOk desired s).2 = false)
    ∧ (getOk = true →
        ((isChanged getOk desired s).2 = true ↔ s.store.template ≠ desired)) := by
  constructor <;> intro h <;> subst h <;> simp [isChanged, UpdatePodTemplateSpec]

/-- Witness for C9 at a failed fetch and at a successful fetch against a
genuinely different desired template. -/
theorem c9_isChanged_witness :
    (isChanged false tmplB simA).2 = false
    ∧ ((isChanged true tmplB simA).2 = true ↔ simA.store.template ≠ tmplB) :=
  ⟨(c9_isChanged false tmplB simA).1 rfl, (c9_isChanged true tmplB simA).2 rfl⟩

/-- C5: `update` invoked on an idle status while cluster health is not
"green" returns an explicit error, leaves the status (phase and
`UnderUpgrade`) and the live state untouched, and performs no API write. -/
theorem c5_update_unhealthy_abort (env : Env) (s : Sim) (us : UStatus)
    (hidle : us.underUpgrade ≠ CondStatus.isTrue) (hhealth : env.health ≠ "green") :
    update env s us =
      (s, [], us, some "waiting for cluster to be fully recovered before restarting") := by
  simp [update, updateStart, hidle, hhealth]

/-- Witness for C5: idle status, health "yellow". -/
theorem c5_update_unhealthy_abort_witness :
    update envYellow simA usIdle =
      (simA, [], usIdle, some "waiting for cluster to be fully recovered before restarting") :=
  c5_update_unhealthy_abort envYellow simA usIdle (by decide) (by decide)

/-- C2 counterexample: invoked with an idle status while the cluster reports
"yellow", `rollingRestart` returns without beginning the upgrade — no cluster
size captured, no partition set, `UnderUpgrade` left unset, no API write —
so the claim that it starts regardless of the reported health status is
false: the code does gate the start on "green". -/
theorem c2_counterexample :
    rollingRestart envYellow simA usIdle = (simA, [], usIdle)
    ∧ envYellow.health = "yellow"
    ∧ usIdle.underUpgrade ≠ CondStatus.isTrue := by
  decide

/-- C2 amended: `rollingRestart` begins an upgrade cycle only when cluster
health is "green" and the node-count and replica-count fetches succeed: with
non-green health, or with a failed node-count fetch, it returns with nothing
changed; when the preconditions hold, its start block captures the cluster
size and the replica count, sets the partition to that replica count, and
sets `UnderUpgrade` to true. -/
theorem c2_rolling_start_preconditions (env : Env) (s : Sim) (us : UStatus)
    (hidle : us.underUpgrade ≠ CondStatus.isTrue) :
    (env.health ≠ "green" → rollingRestart env s us = (s, [], us))
    ∧ (env.health = "green" → env.nodeCount.2 = true →
        rollingRestart env s us = (s, [], us))
    ∧ (env.health = "green" → env.nodeCount.2 = false → env.rcGet = false →
        rollingRestart env s us =
          ({ s with node := { s.node with clusterSize := env.nodeCount.1 } }, [], us))
    ∧ (env.health = "green" → env.nodeCount.2 = false → env.rcGet = true →
        (rollingStart env s us).2.2.2 = false
        ∧ ((rollingStart env s us).2.2.1).underUpgrade = CondStatus.isTrue
        ∧ ((rollingStart env s us).1).node.clusterSize = env.nodeCount.1
        ∧ (env.spStart.getOk 0 = true → env.spStart.upd 0 = APIResult.ok →
            ((rollingStart env s us).1).store.part = s.store.statusReplicas)) := by
  rcases hnc : env.nodeCount with ⟨size, cntErr⟩
  refine ⟨?_, ?_, ?_, ?_⟩
  · intro hne
    simp [rollingRestart, rollingStart, hidle, hne]
  · intro hg hcnt
    simp at hcnt
    subst hcnt
    simp [rollingRestart, rollingStart, hidle, hg, hnc]
  · intro hg hcnt hrc
    simp at hcnt
    subst hcnt
    simp [rollingRestart, rollingStart, hidle, hg, hnc, replicaCount, hrc]
  · intro hg hcnt hrc
    simp at hcnt
    subst hcnt
    have hrs : rollingStart env s us =
        (match setPartition env.spStart s.store.statusReplicas
            { s with node := { s.node with clusterSize := size } } with
         | (s', ev, _) =>
           (s', ev, { us with underUpgrade := CondStatus.isTrue }, false)) := by
      simp [rollingStart, hidle, hg, hnc, replicaCount, hrc]
    rcases hsp : setPartition env.spStart s.store.statusReplicas
        { s with node := { s.node with clusterSize := size } } with ⟨s', ev, ok⟩
    rw [hsp] at hrs
    have hpres := setPartition_preserve env.spStart s.store.statusReplicas
      { s with node := { s.node with clusterSize := size } }
    rw [hsp] at hpres
    refine ⟨by rw [hrs], by rw [hrs], by rw [hrs]; exact hpres.1, ?_⟩
    intro hgo hok
    rw [hrs]
    have hchar := setPartition_ok env.spStart s.store.statusReplicas
      { s with node := { s.node with clusterSize := size } } hgo hok
    rw [hsp] at hchar
    by_cases hp : s.store.part = s.store.statusReplicas
    · simp [hp] at hchar
      rw [hchar.1]
      exact hp
    · simp [hp] at hchar
      rw [hchar.1]

/-- Witness for C2 amended: the all-success environment on the concrete
three-replica state starts the upgrade and sets the partition to 3, while a
failed replica-count fetch under green health returns without starting. -/
theorem c2_rolling_start_witness :
    ((rollingStart envOK simA usIdle).2.2.2 = false
    ∧ ((rollingStart envOK simA usIdle).2.2.1).underUpgrade = CondStatus.isTrue
    ∧ ((rollingStart envOK simA usIdle).1).node.clusterSize = envOK.nodeCount.1
    ∧ (envOK.spStart.getOk 0 = true → envOK.spStart.upd 0 = APIResult.ok →
        ((rollingStart envOK simA usIdle).1).store.part = simA.store.statusReplicas))
    ∧ rollingRestart envRcErr simA usIdle =
        ({ simA with node := { simA.node with clusterSize := envRcErr.nodeCount.1 } },
          [], usIdle) :=
  ⟨(c2_rolling_start_preconditions envOK simA usIdle (by decide)).2.2.2 rfl rfl rfl,
   (c2_rolling_start_preconditions envRcErr simA usIdle (by decide)).2.2.1 rfl rfl rfl⟩

/-- C10: when `update` starts on an idle status with green health and the
cluster node-count fetch fails, it does not abort: `clusterSize` is assigned
the failed fetch's returned value, `UnderUpgrade` is still set true and the
start block reports no error — while `rollingRestart`, under exactly the
same outcomes, returns without starting the upgrade and without touching
anything. -/
theorem c10_nodecount_failure_asymmetry (env : Env) (s : Sim) (us : UStatus)
    (hidle : us.underUpgrade ≠ CondStatus.isTrue) (hgreen : env.health = "green")
    (hcnt : env.nodeCount.2 = true) (hrc : env.rcGet = true) :
    ((updateStart env s us).2.2.2 = none
      ∧ ((updateStart env s us).2.2.1).underUpgrade = CondStatus.isTrue
      ∧ ((updateStart env s us).1).node.clusterSize = env.nodeCount.1)
    ∧ rollingRestart env s us = (s, [], us) := by
  rcases hnc : env.nodeCount with ⟨size, cntErr⟩
  rw [hnc] at hcnt
  simp at hcnt
  subst hcnt
  constructor
  · have hus : updateStart env s us =
        (match setPartition env.spStart s.store.statusReplicas
            { s with node := { s.node with clusterSize := size } } with
         | (s', ev, _) =>
           (s', ev, { us with underUpgrade := CondStatus.isTrue }, none)) := by
      simp [updateStart, hidle, hgreen, hnc, replicaCount, hrc]
    rcases hsp : setPartition env.spStart s.store.statusReplicas
        { s with node := { s.node with clusterSize := size } } with ⟨s', ev, ok⟩
    rw [hsp] at hus
    have hpres := setPartition_preserve env.spStart s.store.statusReplicas
      { s with node := { s.node with clusterSize := size } }
    rw [hsp] at hpres
    exact ⟨by rw [hus], by rw [hus], by rw [hus]; exact hpres.1⟩
  · simp [rollingRestart, rollingStart, hidle, hgreen, hnc]

/-- Witness for C10: green health, failed node-count fetch returning 0, on
the concrete three-replica state. -/
theorem c10_nodecount_failure_witness :
    ((updateStart envCntErr simA usIdle).2.2.2 = none
      ∧ ((updateStart envCntErr simA usIdle).2.2.1).underUpgrade = CondStatus.isTrue
      ∧ ((updateStart envCntErr simA usIdle).1).node.clusterSize = envCntErr.nodeCount.1)
    ∧ rollingRestart envCntErr simA usIdle = (simA, [], usIdle) :=
  c10_nodecount_failure_asymmetry envCntErr simA usIdle (by decide) rfl rfl rfl

/-- C3 counterexample: entering the `NodeRestarting` loop with live
partition 2, the first per-ordinal decrement (`setPartition 1`) fails,
leaving the live partition at 2; the loop nevertheless continues with its
local index and its next (and only) write is partition 0 — it never re-reads
the live partition within the call, so the run's partition writes are `[0]`
where a loop that recomputed the live value after the failed step would next
have written 1.  This refutes the claim that the loop recomputes the live
partition after each per-ordinal step. -/
theorem c3_counterexample :
    partitionWrites (rollingLoop envC3 simC3 2).2.1 = [0]
    ∧ (rollingLoop envC3 simC3 2).2.2 = true
    ∧ simC3.store.part = 2
    ∧ (setPartition (envC3.loopSP 1) ((1 : Int) + 1 - 1) simC3).2.2 = false
    ∧ ((setPartition (envC3.loopSP 1) ((1 : Int) + 1 - 1) simC3).1).store.part = 2 := by
  decide

/-- C3 amended: during `NodeRestarting`, `rollingRestart` and `update`
iterate a local index from the partition ordinal read once at phase entry
down to 1, decrementing the local index at each step without re-reading the
live partition inside the call (so a failed decrement is assumed to have
succeeded): whatever the environment does, each step's write target is
`index - 1` of the local countdown, and the run's partition writes form a
sublist of `ordinal - 1, …, 0`; the live partition is re-read only when a
later call re-enters the phase. -/
theorem c3_local_index_countdown (env : Env) (s : Sim) (k : Nat) :
    List.Sublist (partitionWrites (rollingLoop env s k).2.1) (loopTargets k)
    ∧ List.Sublist (partitionWrites (updateLoop env s k).2.1) (loopTargets k) :=
  ⟨rollingLoop_writes_sub env k s, updateLoop_writes_sub env k s⟩

/-- C6: the partition values written to the live object during a
`NodeRestarting` loop are strictly decreasing and lie strictly below the
ordinal at phase entry (and at or above 0), for both `rollingRestart` and
`fullClusterRestart`, whatever the environment does; when the loop is
entered with the live partition equal to that ordinal and every per-ordinal
step succeeds, the writes are exactly `ordinal - 1, …, 0` — one decrement
per per-ordinal step, down to 0 inclusive. -/
theorem c6_partition_monotone (env : Env) (s : Sim) (k : Nat) :
    ((partitionWrites (rollingLoop env s k).2.1).Pairwise (· > ·)
      ∧ ∀ x ∈ partitionWrites (rollingLoop env s k).2.1, 0 ≤ x ∧ x < (k : Int))
    ∧ ((partitionWrites (fullLoop env s k).2.1).Pairwise (· > ·)
      ∧ ∀ x ∈ partitionWrites (fullLoop env s k).2.1, 0 ≤ x ∧ x < (k : Int))
    ∧ (s.store.part = (k : Int) → loopAllOk env s.node.clusterSize k →
        partitionWrites (rollingLoop env s k).2.1 = loopTargets k
        ∧ partitionWrites (fullLoop env s k).2.1 = loopTargets k) := by
  refine ⟨⟨?_, ?_⟩, ⟨?_, ?_⟩, ?_⟩
  · exact List.Pairwise.sublist (rollingLoop_writes_sub env k s) (loopTargets_pairwise k)
  · intro x hx
    have := (rollingLoop_writes_sub env k s).subset hx
    rw [loopTargets_mem] at this
    exact this
  · exact List.Pairwise.sublist (fullLoop_writes_sub env k s) (loopTargets_pairwise k)
  · intro x hx
    have := (fullLoop_writes_sub env k s).subset hx
    rw [loopTargets_mem] at this
    exact this
  · intro hp hall
    exact ⟨(rollingLoop_success env s.node.clusterSize k s rfl hp hall).1,
           (fullLoop_success env s.node.clusterSize k s rfl hp hall).1⟩

/-- Witness for C6 on the concrete three-replica state with the all-success
environment: the writes are exactly `2, 1, 0`. -/
theorem c6_partition_monotone_witness :
    partitionWrites (rollingLoop envOK simA 3).2.1 = loopTargets 3
    ∧ partitionWrites (fullLoop envOK simA 3).2.1 = loopTargets 3 :=
  (c6_partition_monotone envOK simA 3).2.2 (by decide)
    (by intro j hj; interval_cases j <;> decide)

/-- C1: over any sequence of `rollingRestart`, `fullClusterRestart` or
`update` calls, each under an arbitrary environment, the observed
`UpgradePhase` values form a chain of the forward cycle
`Empty/ControllerUpdated → NodeRestarting → RecoveringData →
ControllerUpdated`: no call ever moves the phase backwards. -/
theorem c1_phase_never_regresses (calls : List (EntryPoint × Env)) (s : Sim) (us : UStatus) :
    List.Chain' (fun a b => callOk a b = true) (us.phase :: runPhases s us calls) := by
  induction calls generalizing s us with
  | nil => simp [runPhases]
  | cons c rest ih =>
    rcases hst : step c.1 c.2 s us with ⟨s', ev, us'⟩
    have h1 : callOk us.phase us'.phase = true := by
      have h := step_phase_ok c.1 c.2 s us
      rw [hst] at h
      exact h
    have hrun : runPhases s us (c :: rest) = us'.phase :: runPhases s' us' rest := by
      simp [runPhases, hst]
    rw [hrun]
    exact List.chain'_cons.mpr ⟨h1, ih s' us'⟩


/-- C7: in the poll condition closures of `waitForNodeRejoinCluster` and
`waitForNodeLeaveCluster`, the error checked before the node-count comparison
is the closure's own named return, still nil at that point, so the branch
that logs and returns the fetch error is unreachable: each condition reduces
to the bare count comparison, and no wait ever terminates with a fetch
error — a node-count fetch failure never ends the poll early. -/
theorem c7_fetch_error_branch_unreachable :
    ∀ (cs : Int) (fetch : Int × Bool) (obs : Nat → Int × Bool),
      rejoinCond cs fetch = (decide (cs ≤ fetch.1), none)
      ∧ leaveCond cs fetch = (decide (cs > fetch.1), none)
      ∧ (waitForNodeRejoinCluster cs obs).1 ≠ some PollErr.fetch
      ∧ (waitForNodeLeaveCluster cs obs).1 ≠ some PollErr.fetch := by
  intro cs fetch obs
  refine ⟨rejoinCond_eq cs fetch, leaveCond_eq cs fetch, ?_, ?_⟩
  · have h := (pollLoop_spec (rejoinCond cs) obs
      (fun f => by rw [rejoinCond_eq]) pollTicks 0).2
    unfold waitForNodeRejoinCluster
    rcases h with h | h <;> simp [h]
  · have h := (pollLoop_spec (leaveCond cs) obs
      (fun f => by rw [leaveCond_eq]) pollTicks 0).2
    unfold waitForNodeLeaveCluster
    rcases h with h | h <;> simp [h]

/-- C8: `waitForNodeRejoinCluster` polls the node count once a second for up
to 60 seconds and succeeds (nil error, `true`) exactly when some tick within
the window observes a count at least the recorded `clusterSize`;
`waitForNodeLeaveCluster` is symmetric with a strictly smaller count; each
returns the timeout error and `false` when no poll within the 60-tick
ceiling succeeds. -/
theorem c8_wait_poll_characterisation :
    ∀ (cs : Int) (obs : Nat → Int × Bool),
      pollTicks = 60
      ∧ (waitForNodeRejoinCluster cs obs = (none, true) ↔ ∃ j, j < 60 ∧ cs ≤ (obs j).1)
      ∧ ((¬ ∃ j, j < 60 ∧ cs ≤ (obs j).1) →
          waitForNodeRejoinCluster cs obs = (some PollErr.timeout, false))
      ∧ (waitForNodeLeaveCluster cs obs = (none, true) ↔ ∃ j, j < 60 ∧ (obs j).1 < cs)
      ∧ ((¬ ∃ j, j < 60 ∧ (obs j).1 < cs) →
          waitForNodeLeaveCluster cs obs = (some PollErr.timeout, false)) := by
  intro cs obs
  have hrj := pollLoop_spec (rejoinCond cs) obs (fun f => by rw [rejoinCond_eq]) pollTicks 0
  have hlv := pollLoop_spec (leaveCond cs) obs (fun f => by rw [leaveCond_eq]) pollTicks 0
  have hrc : ∀ j, (rejoinCond cs (obs (0 + j))).1 = true ↔ cs ≤ (obs j).1 := by
    intro j
    rw [rejoinCond_eq]
    simp [Nat.zero_add]
  have hlc : ∀ j, (leaveCond cs (obs (0 + j))).1 = true ↔ (obs j).1 < cs := by
    intro j
    rw [leaveCond_eq]
    simp [Nat.zero_add]
  refine ⟨rfl, ?_, ?_, ?_, ?_⟩
  · unfold waitForNodeRejoinCluster
    rw [show (60 : Nat) = pollTicks from rfl]
    constructor
    · intro h
      have hn : pollLoop (rejoinCond cs) obs 0 pollTicks = none := by
        rcases hrj.2 with h2 | h2
        · exact h2
        · rw [h2] at h
          simp at h
      rcases hrj.1.mp hn with ⟨j, hj, hcj⟩
      exact ⟨j, hj, (hrc j).mp hcj⟩
    · rintro ⟨j, hj, hcj⟩
      have hn : pollLoop (rejoinCond cs) obs 0 pollTicks = none :=
        hrj.1.mpr ⟨j, hj, (hrc j).mpr hcj⟩
      rw [hn]
      rfl
  · intro hno
    unfold waitForNodeRejoinCluster
    have hn : pollLoop (rejoinCond cs) obs 0 pollTicks ≠ none := by
      intro h
      rcases hrj.1.mp h with ⟨j, hj, hcj⟩
      exact hno ⟨j, hj, (hrc j).mp hcj⟩
    rcases hrj.2 with h2 | h2
    · exact absurd h2 hn
    · rw [h2]
      rfl
  · unfold waitForNodeLeaveCluster
    rw [show (60 : Nat) = pollTicks from rfl]
    constructor
    · intro h
      have hn : pollLoop (leaveCond cs) obs 0 pollTicks = none := by
        rcases hlv.2 with h2 | h2
        · exact h2
        · rw [h2] at h
          simp at h
      rcases hlv.1.mp hn with ⟨j, hj, hcj⟩
      exact ⟨j, hj, (hlc j).mp hcj⟩
    · rintro ⟨j, hj, hcj⟩
      have hn : pollLoop (leaveCond cs) obs 0 pollTicks = none :=
        hlv.1.mpr ⟨j, hj, (hlc j).mpr hcj⟩
      rw [hn]
      rfl
  · intro hno
    unfold waitForNodeLeaveCluster
    have hn : pollLoop (leaveCond cs) obs 0 pollTicks ≠ none := by
      intro h
      rcases hlv.1.mp h with ⟨j, hj, hcj⟩
      exact hno ⟨j, hj, (hlc j).mp hcj⟩
    rcases hlv.2 with h2 | h2
    · exact absurd h2 hn
    · rw [h2]
      rfl

/-- Witness for C8 at a concrete stream: a constant count of 5 satisfies the
rejoin threshold 3 at the first tick. -/
theorem c8_witness : waitForNodeRejoinCluster 3 (fun _ => (5, false)) = (none, true) :=
  (c8_wait_poll_characterisation 3 (fun _ => (5, false))).2.1.mpr
    ⟨0, by decide, by decide⟩

end ESOp
